import Mathlib

set_option maxRecDepth 4000

attribute [local semireducible] Rat.mul Rat.inv Rat.add Rat.sub Rat.ofScientific

/-!
Shallow embedding of the credential lifecycle manager and the candle
normalization logic of `src/main.py` (a FastAPI façade over the Groww
brokerage API), together with proofs of the specified properties.

Modelling conventions:
* Calendar dates are abstract day numbers (`Nat`), ordered as the calendar.
* A wall-clock instant is a date plus a time-of-day in minutes since
  midnight; Python `datetime` comparison is the lexicographic order.
* Python globals (`access_token`, `groww`, `token_generated_date`) become an
  explicit `TokenState` record threaded through the functions.
* The external `GrowwAPI` calls are modelled by an `Upstream` record giving
  the outcome of each fallible external step: `GrowwAPI.get_access_token`
  (returns a token or raises) and the `GrowwAPI(token)` constructor
  (succeeds or raises).  The client object itself is modelled by the token
  it was built from.
* Python `float` values are modelled as rationals `ℚ`; the normalization
  code only parses and moves them, so no floating-point rounding occurs in
  the modelled paths (`int(x / 1000)` is exact for the magnitudes of real
  epoch timestamps, and is modelled by truncating division).
* Raising `HTTPException(status, detail)` is modelled by returning
  `Except.error (HErr.http status detail)`.
-/

/-- A wall-clock instant: abstract calendar day number plus minutes since
midnight (03:30 is minute 210). -/
structure PyDateTime where
  date : Nat
  minutes : Nat
deriving DecidableEq, Repr

/-- Python `datetime < datetime`: lexicographic on (date, time-of-day). -/
def dtLt (a b : PyDateTime) : Bool :=
  a.date < b.date || (a.date = b.date && a.minutes < b.minutes)

/-- `time(3, 30)` as minutes since midnight. -/
def cutoverMinutes : Nat := 210

/-- The module-level mutable globals of `main.py`: `access_token`, `groww`
(the client, identified by the token it was constructed from) and
`token_generated_date`. -/
structure TokenState where
  access_token : Option String
  groww : Option String
  token_generated_date : Option Nat
deriving DecidableEq, Repr

/-- The credential configuration: environment variables `API_KEY` and
`API_SECRET` (`none` when unset). -/
structure Config where
  api_key : Option String
  secret : Option String
deriving DecidableEq, Repr

/-- Python truthiness of an optional string: `not api_key` is true exactly
when the variable is unset or the empty string. -/
def pyTruthyStr : Option String → Bool
  | none => false
  | some s => s ≠ ""

/-- Outcome of the two fallible external `GrowwAPI` steps inside one
`generate_access_token` call: the credential exchange
(`GrowwAPI.get_access_token`, yielding a token or an exception message) and
the client construction (`GrowwAPI(access_token)`, which performs network
work and may also raise). -/
structure Upstream where
  exchangeResult : Except String String
  clientResult : Except String Unit
deriving Repr

/-- A raised `HTTPException(status_code, detail)`. -/
inductive HErr where
  | http (status : Nat) (detail : String)
deriving DecidableEq, Repr

/-- Result of a `generate_access_token` call: the globals after the call
(mutations survive a raised exception), the returned token or the raised
exception, and how many times the credential exchange was invoked. -/
structure GenResult where
  state : TokenState
  result : Except HErr String
  exchangeCalls : Nat

/-- `generate_access_token` of `main.py` lines 86-111.  The credential
checks happen before any external call; on a successful exchange the global
`access_token` is assigned first, then the client is constructed, then
`token_generated_date` is set to today — so a constructor failure leaves
`access_token` updated while `groww` and `token_generated_date` keep their
previous values.  Generic exceptions are converted to an
`HTTPException(500, "Error fetching access token: ...")`. -/
def generate_access_token (cfg : Config) (up : Upstream) (now : PyDateTime)
    (st : TokenState) : GenResult :=
  if pyTruthyStr cfg.api_key = false then
    ⟨st, .error (HErr.http 500 "Missing API_KEY environment variable. Please check your .env file or environment settings."), 0⟩
  else if pyTruthyStr cfg.secret = false then
    ⟨st, .error (HErr.http 500 "Missing API_SECRET environment variable. Please check your .env file or environment settings."), 0⟩
  else
    match up.exchangeResult with
    | .error e =>
        ⟨st, .error (HErr.http 500 ("Error fetching access token: " ++ e)), 1⟩
    | .ok tok =>
        match up.clientResult with
        | .error e =>
            ⟨{ st with access_token := some tok },
             .error (HErr.http 500 ("Error fetching access token: " ++ e)), 1⟩
        | .ok _ =>
            ⟨⟨some tok, some tok, some now.date⟩, .ok tok, 1⟩

/-- `should_regenerate_token` of `main.py` lines 113-138, as a pure function
of the current instant and the stored state.  The same-day branch compares
`datetime.combine(token_generated_date, time(0, 0))` against
`datetime.combine(current_date, time(3, 30))` with the lexicographic
`datetime` order. -/
def should_regenerate_token (now : PyDateTime) (st : TokenState) : Bool :=
  if st.access_token.isNone || st.token_generated_date.isNone then
    true
  else
    match st.token_generated_date with
    | none => true
    | some d =>
        if d < now.date then
          decide (cutoverMinutes ≤ now.minutes)
        else if now.date = d then
          if cutoverMinutes ≤ now.minutes then
            dtLt ⟨d, 0⟩ ⟨now.date, cutoverMinutes⟩
          else false
        else false

/-- Result of a `get_valid_access_token` call: the globals after the call,
the returned `(access_token, groww)` pair or the propagated exception, and
the number of credential-exchange invocations. -/
structure EnsureResult where
  state : TokenState
  result : Except HErr (Option String × Option String)
  exchangeCalls : Nat

/-- `get_valid_access_token` of `main.py` lines 140-147: regenerate when
`should_regenerate_token()` says so (exceptions propagate), then return the
globals `(access_token, groww)`. -/
def get_valid_access_token (cfg : Config) (up : Upstream) (now : PyDateTime)
    (st : TokenState) : EnsureResult :=
  if should_regenerate_token now st then
    let g := generate_access_token cfg up now st
    match g.result with
    | .error e => ⟨g.state, .error e, g.exchangeCalls⟩
    | .ok _ => ⟨g.state, .ok (g.state.access_token, g.state.groww), g.exchangeCalls⟩
  else
    ⟨st, .ok (st.access_token, st.groww), 0⟩

/-- A JSON-like Python value as it appears in the upstream historical-data
response.  `plist` models both Python lists and tuples; `pdict` is an
association list read first-match (Python dicts cannot repeat keys). -/
inductive PyVal where
  | pint (n : Int)
  | pfloat (q : ℚ)
  | pstr (s : String)
  | plist (xs : List PyVal)
  | pdict (kvs : List (String × PyVal))
  | pnone

/-- Python dict lookup `d[k]` / `k in d` on the association-list model. -/
def dget (kvs : List (String × PyVal)) (k : String) : Option PyVal :=
  match kvs with
  | [] => none
  | (k', v) :: rest => if k' = k then some v else dget rest k

/-- `candle_dict.get(k, candle_dict.get(k2, 0))`. -/
def dgetD (kvs : List (String × PyVal)) (k k2 : String) : PyVal :=
  match dget kvs k with
  | some v => v
  | none =>
      match dget kvs k2 with
      | some v => v
      | none => .pint 0

/-- Reads a run of decimal digits into a `Nat`; `none` unless the list is
nonempty and all digits. -/
def parseNatAux : List Char → Nat → Option Nat
  | [], acc => some acc
  | c :: cs, acc =>
      if c.isDigit then parseNatAux cs (acc * 10 + (c.toNat - 48)) else none

/-- All-digit nonempty character list to `Nat`. -/
def parseNatDigits (cs : List Char) : Option Nat :=
  match cs with
  | [] => none
  | _ => parseNatAux cs 0

/-- Unsigned decimal numeral, optionally with a fractional part
(`digits` or `digits.digits`), as a rational. -/
def parseUnsignedRat (cs : List Char) : Option ℚ :=
  let intPart := cs.takeWhile (fun c => c ≠ '.')
  match cs.dropWhile (fun c => c ≠ '.') with
  | [] => (parseNatDigits intPart).map (fun n => (n : ℚ))
  | _ :: frac =>
      match parseNatDigits intPart, parseNatDigits frac with
      | some n, some f =>
          if frac.all (fun c => c.isDigit) then
            some ((n : ℚ) + (f : ℚ) / ((10 : ℚ) ^ frac.length))
          else none
      | _, _ => none

/-- Python `float(s)` on a string, modelled for plain decimal numerals with
an optional sign (the forms occurring in candle payloads); any other string
raises, i.e. yields `none`. -/
def parseFloatStr (s : String) : Option ℚ :=
  match s.data with
  | '-' :: rest => (parseUnsignedRat rest).map (fun q => -q)
  | '+' :: rest => parseUnsignedRat rest
  | cs => parseUnsignedRat cs

/-- Python `int(s)` on a string: an optionally signed all-digit numeral;
anything else (including `"1.5"`) raises. -/
def parseIntStr (s : String) : Option Int :=
  match s.data with
  | '-' :: rest => (parseNatDigits rest).map (fun n => -(n : Int))
  | '+' :: rest => (parseNatDigits rest).map (fun n => (n : Int))
  | cs => (parseNatDigits cs).map (fun n => (n : Int))

/-- Truncation of a rational toward zero, the behaviour of Python `int()`
on a float. -/
def ratTrunc (q : ℚ) : Int := q.num.tdiv (q.den : Int)

/-- Python `float(x)` on a candle field value: numbers pass through,
numeric strings are parsed, anything else raises (`none`). -/
def pyFloat : PyVal → Option ℚ
  | .pint n => some (n : ℚ)
  | .pfloat q => some q
  | .pstr s => parseFloatStr s
  | _ => none

/-- Python `int(x)` on a candle field value: ints pass through, floats
truncate toward zero, integer strings parse, anything else raises. -/
def pyInt : PyVal → Option Int
  | .pint n => some n
  | .pfloat q => some (ratTrunc q)
  | .pstr s => parseIntStr s
  | _ => none

/-- The millisecond-resolution threshold `9999999999` of `main.py`. -/
def msThreshold : Int := 9999999999

/-- The timestamp handling of `append_from_dict` (`main.py` lines 307-313):
a string is first converted by `int(float(s))`; a value larger than the
threshold is downscaled by `int(t / 1000)` (exact truncating division at
epoch magnitudes); non-numeric values raise. -/
def timeFromVal : PyVal → Option Int
  | .pstr s =>
      match parseFloatStr s with
      | none => none
      | some q =>
          let t := ratTrunc q
          some (if msThreshold < t then t.tdiv 1000 else t)
  | .pint n => some (if msThreshold < n then n.tdiv 1000 else n)
  | .pfloat q =>
      some (if (msThreshold : ℚ) < q then ratTrunc (q / 1000) else ratTrunc q)
  | _ => none

/-- A normalized candle `[epochSeconds, open, high, low, close, volume]`. -/
structure Candle where
  t : Int
  o : ℚ
  h : ℚ
  l : ℚ
  c : ℚ
  v : Int
deriving DecidableEq, Repr

/-- `append_from_dict` of `main.py` lines 305-321: field lookups fall back
long-key → short-key → `0`; the whole entry is appended only if every
conversion succeeds, and any exception is swallowed (`none` = not
appended). -/
def append_from_dict (kvs : List (String × PyVal)) : Option Candle := do
  let t ← timeFromVal (dgetD kvs "time" "t")
  let o ← pyFloat (dgetD kvs "open" "o")
  let h ← pyFloat (dgetD kvs "high" "h")
  let l ← pyFloat (dgetD kvs "low" "l")
  let c ← pyFloat (dgetD kvs "close" "c")
  let v ← pyInt (dgetD kvs "volume" "v")
  pure ⟨t, o, h, l, c, v⟩

/-- `append_from_list` of `main.py` lines 323-333: expects
`[t, o, h, l, c, v?]`; fewer than five elements raise during unpacking, a
missing sixth element defaults the volume to `0`, and any exception is
swallowed (`none` = not appended). -/
def append_from_list : List PyVal → Option Candle
  | x0 :: x1 :: x2 :: x3 :: x4 :: rest => do
      let t0 ← pyInt x0
      let t := if msThreshold < t0 then t0.tdiv 1000 else t0
      let o ← pyFloat x1
      let h ← pyFloat x2
      let l ← pyFloat x3
      let c ← pyFloat x4
      let v ← match rest with
        | [] => some (0 : Int)
        | y :: _ => pyInt y
      pure ⟨t, o, h, l, c, v⟩
  | _ => none

/-- The per-entry dispatch of `iterate_and_append` (`main.py` lines
336-340): dict entries go through `append_from_dict`, list/tuple entries
through `append_from_list`, anything else is skipped. -/
def normalizeEntry : PyVal → Option Candle
  | .pdict kvs => append_from_dict kvs
  | .plist xs => append_from_list xs
  | _ => none

/-- `iterate_and_append` of `main.py` lines 335-340, with the mutable
`candles_array` made an explicit accumulator appended to in input order. -/
def iterate_and_append (acc : List Candle) : List PyVal → List Candle
  | [] => acc
  | item :: rest =>
      match normalizeEntry item with
      | some c => iterate_and_append (acc ++ [c]) rest
      | none => iterate_and_append acc rest

/-- Python truthiness of a `PyVal`, for `if historical_data:`. -/
def pyTruthyVal : PyVal → Bool
  | .pint n => n ≠ 0
  | .pfloat q => q ≠ 0
  | .pstr s => s ≠ ""
  | .plist xs => ¬ xs.isEmpty
  | .pdict kvs => ¬ kvs.isEmpty
  | .pnone => false

/-- The response-shape dispatch of `get_historical_data` (`main.py` lines
342-348): a truthy response is normalized from the first matching shape —
a top-level `candles` list, else a nested `data.candles` list, else a bare
top-level list; anything else yields no candles. -/
def extract_candles (historical_data : PyVal) : List Candle :=
  if pyTruthyVal historical_data then
    match historical_data with
    | .pdict kvs =>
        match dget kvs "candles" with
        | some (.plist l) => iterate_and_append [] l
        | _ =>
            match dget kvs "data" with
            | some (.pdict inner) =>
                match dget inner "candles" with
                | some (.plist l) => iterate_and_append [] l
                | _ => []
            | _ => []
    | .plist l => iterate_and_append [] l
    | _ => []
  else []

/-- The upstream per-symbol LTP endpoint: given the exchange-qualified
symbol, `groww.get_ltp` returns a payload or raises with a message. -/
structure LtpEnv where
  ltpData : String → Except String PyVal

/-- Result of a `get_ltp` request: the HTTP outcome, the globals after the
call, the number of `get_valid_access_token` invocations and the number of
upstream `groww.get_ltp` invocations. -/
structure LtpResult where
  result : Except HErr (List (String × PyVal))
  state : TokenState
  tokenCalls : Nat
  upstreamCalls : Nat

/-- The per-symbol loop of `get_ltp` (`main.py` lines 205-213): symbols are
qualified as `NSE_<symbol>` and fetched in order; an upstream exception
aborts the loop and surfaces as a 500.  Returns the collected pairs (or the
error) and the number of upstream calls made. -/
def ltpLoop (env : LtpEnv) : List String → Except HErr (List (String × PyVal)) × Nat
  | [] => (.ok [], 0)
  | s :: rest =>
      match env.ltpData ("NSE_" ++ s) with
      | .error e => (.error (HErr.http 500 ("Error fetching LTP data: " ++ e)), 1)
      | .ok v =>
          match ltpLoop env rest with
          | (.ok acc, n) => (.ok ((s, v) :: acc), n + 1)
          | (.error err, n) => (.error err, n + 1)

/-- The `/get-ltp` handler of `main.py` lines 189-219: an empty symbol list
raises `HTTPException(400, ...)` before any token work; otherwise a valid
token is obtained (lazily regenerating), the client presence is checked,
and each symbol is fetched upstream. -/
def get_ltp (symbols : List String) (cfg : Config) (up : Upstream)
    (env : LtpEnv) (now : PyDateTime) (st : TokenState) : LtpResult :=
  if symbols.isEmpty then
    ⟨.error (HErr.http 400 "Symbols list cannot be empty"), st, 0, 0⟩
  else
    let er := get_valid_access_token cfg up now st
    match er.result with
    | .error e => ⟨.error e, er.state, 1, 0⟩
    | .ok (_, none) =>
        ⟨.error (HErr.http 500 "Groww client not initialized. Check API credentials."),
         er.state, 1, 0⟩
    | .ok (_, some _) =>
        match ltpLoop env symbols with
        | (r, n) => ⟨r, er.state, 1, n⟩

/-!  Helper lemmas shared by several of the claim theorems. -/

/-- `should_regenerate_token` with a stored credential reduces to: the
issue date is not in the future and the time-of-day is at or past the
cutover. -/
theorem should_regenerate_token_some (now : PyDateTime) (tok : String)
    (g : Option String) (d : Nat) :
    should_regenerate_token now ⟨some tok, g, some d⟩
      = (decide (d ≤ now.date) && decide (cutoverMinutes ≤ now.minutes)) := by
  simp only [should_regenerate_token, Option.isNone_some, Bool.or_self, dtLt, cutoverMinutes]
  rcases Nat.lt_trichotomy d now.date with h | h | h
  · simp [h, Nat.le_of_lt h, Nat.ne_of_lt h]
  · subst h
    by_cases hm : 210 ≤ now.minutes <;> simp [hm]
  · simp [Nat.not_lt_of_lt h, Nat.ne_of_gt h]
    omega

/-- With no stored token or no stored issue date, regeneration is always
requested. -/
theorem should_regenerate_token_absent (now : PyDateTime) (st : TokenState)
    (h : st.access_token = none ∨ st.token_generated_date = none) :
    should_regenerate_token now st = true := by
  rcases h with h | h <;> simp [should_regenerate_token, h]

/-- A successful `generate_access_token` call ends in the fully fresh
state: the new token, a client built from it, and today as issue date. -/
theorem generate_access_token_ok_state (cfg : Config) (up : Upstream)
    (now : PyDateTime) (st : TokenState) (tok : String)
    (h : (generate_access_token cfg up now st).result = .ok tok) :
    (generate_access_token cfg up now st).state
      = ⟨some tok, some tok, some now.date⟩ := by
  unfold generate_access_token at h ⊢
  by_cases h1 : pyTruthyStr cfg.api_key = false
  · simp [h1] at h
  by_cases h2 : pyTruthyStr cfg.secret = false
  · simp [h1, h2] at h
  rcases hex : up.exchangeResult with e | t
  · simp [h1, h2, hex] at h
  rcases hcl : up.clientResult with e' | u
  · simp [h1, h2, hex, hcl] at h
  · simp [h1, h2, hex, hcl] at h ⊢
    simp [h]

/-- `iterate_and_append` is the order-preserving per-entry partial map:
the accumulator followed by the normalized forms of exactly the entries
whose normalization succeeds. -/
theorem iterate_and_append_eq (acc : List Candle) (items : List PyVal) :
    iterate_and_append acc items = acc ++ items.filterMap normalizeEntry := by
  induction items generalizing acc with
  | nil => simp [iterate_and_append]
  | cons x rest ih =>
      cases h : normalizeEntry x <;> simp [iterate_and_append, h, ih]

/-- C1: every `get_valid_access_token` call made at or after the 03:30
cutover that returns (rather than raising) leaves the stored issue date
equal to the current calendar date, so the token it hands out was issued
at-or-after that day's cutover.  The hypothesis `hsane` restricts to
reachable stores: an issue date, when present, was written by an earlier
`datetime.now().date()` and so is not in the future. -/
theorem ensure_valid_after_cutover_fresh_date (cfg : Config) (up : Upstream)
    (now : PyDateTime) (st : TokenState)
    (hcut : cutoverMinutes ≤ now.minutes)
    (hsane : ∀ d, st.token_generated_date = some d → d ≤ now.date)
    (p : Option String × Option String)
    (hret : (get_valid_access_token cfg up now st).result = .ok p) :
    (get_valid_access_token cfg up now st).state.token_generated_date
      = some now.date := by
  have hreg : should_regenerate_token now st = true := by
    rcases htok : st.access_token with _ | tok
    · exact should_regenerate_token_absent now st (Or.inl htok)
    rcases hdate : st.token_generated_date with _ | d
    · exact should_regenerate_token_absent now st (Or.inr hdate)
    have hd : d ≤ now.date := hsane d hdate
    have : st = ⟨some tok, st.groww, some d⟩ := by
      cases st; simp_all
    rw [this, should_regenerate_token_some]
    simp [hd, hcut]
  unfold get_valid_access_token at hret ⊢
  rw [hreg] at hret ⊢
  simp only [if_true] at hret ⊢
  rcases hres : (generate_access_token cfg up now st).result with e | tok
  · simp [hres] at hret
  · have := generate_access_token_ok_state cfg up now st tok hres
    simp [hres, this]

/-- Witness for `ensure_valid_after_cutover_fresh_date` at a concrete
call: token issued yesterday, call at 04:00, regeneration succeeds. -/
theorem ensure_valid_after_cutover_fresh_date_witness :
    (get_valid_access_token ⟨some "k", some "s"⟩ ⟨.ok "tok", .ok ()⟩ ⟨9, 240⟩
        ⟨some "old", some "old", some 8⟩).state.token_generated_date = some 9 :=
  ensure_valid_after_cutover_fresh_date ⟨some "k", some "s"⟩ ⟨.ok "tok", .ok ()⟩
    ⟨9, 240⟩ ⟨some "old", some "old", some 8⟩ (by decide)
    (by intro d hd; simp only [Option.some.injEq] at hd; show d ≤ 9; omega)
    (some "tok", some "tok") rfl

/-- C2 counterexample: `generate_access_token` is not atomic in the
claimed sense.  Starting from the empty store, with the credential
exchange succeeding but the `GrowwAPI(access_token)` construction raising,
the call raises a 500 yet leaves the stored token present
(`some "tok"`) while the stored issue date is still absent. -/
theorem generate_partial_update_counterexample :
    (generate_access_token ⟨some "key", some "secret"⟩ ⟨.ok "tok", .error "boom"⟩
        ⟨7, 300⟩ ⟨none, none, none⟩).state.access_token = some "tok" ∧
    (generate_access_token ⟨some "key", some "secret"⟩ ⟨.ok "tok", .error "boom"⟩
        ⟨7, 300⟩ ⟨none, none, none⟩).state.token_generated_date = none ∧
    (generate_access_token ⟨some "key", some "secret"⟩ ⟨.ok "tok", .error "boom"⟩
        ⟨7, 300⟩ ⟨none, none, none⟩).result
      = .error (HErr.http 500 "Error fetching access token: boom") :=
  ⟨rfl, rfl, rfl⟩

/-- C2 amended: when `generate_access_token` returns successfully it
overwrites token and issue date together with fresh values, and when the
credential check or the exchange call itself fails it modifies neither;
only a failure of the client construction after a successful exchange
leaves the token updated with a stale or absent issue date. -/
theorem generate_access_token_atomic_cases (cfg : Config) (up : Upstream)
    (now : PyDateTime) (st : TokenState) :
    (∀ tok, (generate_access_token cfg up now st).result = .ok tok →
        (generate_access_token cfg up now st).state
          = ⟨some tok, some tok, some now.date⟩) ∧
    ((pyTruthyStr cfg.api_key = false ∨ pyTruthyStr cfg.secret = false ∨
        (∃ e, up.exchangeResult = .error e)) →
        (generate_access_token cfg up now st).state = st) := by
  constructor
  · intro tok h
    exact generate_access_token_ok_state cfg up now st tok h
  · intro h
    unfold generate_access_token
    rcases h with h | h | ⟨e, h⟩
    · simp [h]
    · by_cases h1 : pyTruthyStr cfg.api_key = false <;> simp [h1, h]
    · by_cases h1 : pyTruthyStr cfg.api_key = false
      · simp [h1]
      · by_cases h2 : pyTruthyStr cfg.secret = false <;> simp [h1, h2, h]

/-- Witness for `generate_access_token_atomic_cases`: both conjuncts at
concrete inputs (a successful call, and a missing-key call). -/
theorem generate_access_token_atomic_cases_witness :
    (generate_access_token ⟨some "key", some "secret"⟩ ⟨.ok "tok", .ok ()⟩
        ⟨7, 300⟩ ⟨none, none, none⟩).state
      = ⟨some "tok", some "tok", some 7⟩ ∧
    (generate_access_token ⟨none, some "secret"⟩ ⟨.ok "tok", .ok ()⟩
        ⟨7, 300⟩ ⟨some "a", none, some 3⟩).state = ⟨some "a", none, some 3⟩ :=
  ⟨(generate_access_token_atomic_cases ⟨some "key", some "secret"⟩
      ⟨.ok "tok", .ok ()⟩ ⟨7, 300⟩ ⟨none, none, none⟩).1 "tok" rfl,
   (generate_access_token_atomic_cases ⟨none, some "secret"⟩
      ⟨.ok "tok", .ok ()⟩ ⟨7, 300⟩ ⟨some "a", none, some 3⟩).2
      (Or.inl (by decide))⟩

/-- C3: the cutover decision table of `should_regenerate_token`: true
whenever no credential is stored; false when the stored issue date is
today and the time-of-day is before 03:30; true when the issue date is
yesterday and the time-of-day is at or after 03:30; false when the issue
date is yesterday and the time-of-day is before 03:30. -/
theorem should_regenerate_decision_table (now : PyDateTime) (st : TokenState) :
    ((st.access_token = none ∨ st.token_generated_date = none) →
        should_regenerate_token now st = true) ∧
    (∀ tok d, st.access_token = some tok → st.token_generated_date = some d →
        d = now.date → now.minutes < cutoverMinutes →
        should_regenerate_token now st = false) ∧
    (∀ tok d, st.access_token = some tok → st.token_generated_date = some d →
        now.date = d + 1 → cutoverMinutes ≤ now.minutes →
        should_regenerate_token now st = true) ∧
    (∀ tok d, st.access_token = some tok → st.token_generated_date = some d →
        now.date = d + 1 → now.minutes < cutoverMinutes →
        should_regenerate_token now st = false) := by
  have hst : ∀ (tok : String) (d : Nat),
      st.access_token = some tok → st.token_generated_date = some d →
      st = ⟨some tok, st.groww, some d⟩ := by
    intro tok d h1 h2; cases st; simp_all
  refine ⟨should_regenerate_token_absent now st, ?_, ?_, ?_⟩
  · intro tok d h1 h2 hde hm
    rw [hst tok d h1 h2, should_regenerate_token_some]
    simp [Nat.not_le_of_lt hm]
  · intro tok d h1 h2 hde hm
    rw [hst tok d h1 h2, should_regenerate_token_some]
    simp [hm]; omega
  · intro tok d h1 h2 hde hm
    rw [hst tok d h1 h2, should_regenerate_token_some]
    simp [Nat.not_le_of_lt hm]

/-- Witness for `should_regenerate_decision_table`: all four rows at
concrete instants (day 5, issue date 5 or 4, times 01:40 and 05:00). -/
theorem should_regenerate_decision_table_witness :
    should_regenerate_token ⟨5, 100⟩ ⟨none, none, none⟩ = true ∧
    should_regenerate_token ⟨5, 100⟩ ⟨some "t", some "t", some 5⟩ = false ∧
    should_regenerate_token ⟨5, 300⟩ ⟨some "t", some "t", some 4⟩ = true ∧
    should_regenerate_token ⟨5, 100⟩ ⟨some "t", some "t", some 4⟩ = false :=
  ⟨(should_regenerate_decision_table ⟨5, 100⟩ ⟨none, none, none⟩).1
      (Or.inl rfl),
   (should_regenerate_decision_table ⟨5, 100⟩ ⟨some "t", some "t", some 5⟩).2.1
      "t" 5 rfl rfl rfl (by decide),
   (should_regenerate_decision_table ⟨5, 300⟩ ⟨some "t", some "t", some 4⟩).2.2.1
      "t" 4 rfl rfl rfl (by decide),
   (should_regenerate_decision_table ⟨5, 100⟩ ⟨some "t", some "t", some 4⟩).2.2.2
      "t" 4 rfl rfl rfl (by decide)⟩

/-- C4: with a token stored, `should_regenerate_token` returns true when
the current date equals the stored issue date, the time-of-day is at or
after 03:30, and the issue date taken at midnight predates today's 03:30
instant (the source's same-day branch; the last condition always holds for
equal dates since the issue date is stored date-only). -/
theorem should_regenerate_same_day_after_cutover (now : PyDateTime)
    (st : TokenState) (tok : String) (d : Nat)
    (htok : st.access_token = some tok)
    (hd : st.token_generated_date = some d)
    (hsame : now.date = d)
    (hcut : cutoverMinutes ≤ now.minutes)
    (_hpred : dtLt ⟨d, 0⟩ ⟨now.date, cutoverMinutes⟩ = true) :
    should_regenerate_token now st = true := by
  have hst : st = ⟨some tok, st.groww, some d⟩ := by
    cases st; simp_all
  rw [hst, should_regenerate_token_some]
  simp [hcut]; omega

/-- Witness for `should_regenerate_same_day_after_cutover`: issue date
day 5, call on day 5 at 05:00. -/
theorem should_regenerate_same_day_after_cutover_witness :
    should_regenerate_token ⟨5, 300⟩ ⟨some "t", some "t", some 5⟩ = true :=
  should_regenerate_same_day_after_cutover ⟨5, 300⟩ ⟨some "t", some "t", some 5⟩
    "t" 5 rfl rfl rfl (by decide) (by decide)

/-- C5 counterexample: a dict entry missing all price fields is NOT
omitted — the `get(..., 0)` fall-backs parse it into an all-zero candle,
which is appended to the output. -/
theorem missing_price_fields_dict_not_omitted :
    iterate_and_append [] [.pdict [("time", .pint 1700000000)]]
      = [⟨1700000000, 0, 0, 0, 0, 0⟩] ∧
    iterate_and_append [] [.pdict [("time", .pint 1700000000)]] ≠ [] :=
  ⟨by decide, by decide⟩

/-- C5 amended: every entry whose parse actually raises (for example one
holding a non-numeric string) is omitted from the output without raising
and without aborting or altering the normalization of the other entries
of the batch; a dict entry missing all price fields, however, parses via
the `0` defaults and is emitted as an all-zero candle rather than
omitted. -/
theorem failed_entries_dropped (pre post : List PyVal) (e : PyVal)
    (h : normalizeEntry e = none) :
    iterate_and_append [] (pre ++ e :: post)
      = iterate_and_append [] (pre ++ post) := by
  simp [iterate_and_append_eq, h]

/-- Witness for `failed_entries_dropped`: a non-numeric dict entry between
two well-formed entries drops out, leaving its neighbours untouched. -/
theorem failed_entries_dropped_witness :
    iterate_and_append []
        ([.plist [.pint 1, .pint 2, .pint 3, .pint 1, .pint 2]]
          ++ PyVal.pdict [("time", .pint 9), ("open", .pstr "oops")]
            :: [.pdict [("time", .pint 5)]])
      = iterate_and_append []
          ([.plist [.pint 1, .pint 2, .pint 3, .pint 1, .pint 2]]
            ++ [.pdict [("time", .pint 5)]]) :=
  failed_entries_dropped [.plist [.pint 1, .pint 2, .pint 3, .pint 1, .pint 2]]
    [.pdict [("time", .pint 5)]]
    (.pdict [("time", .pint 9), ("open", .pstr "oops")]) (by decide)

/-- C6: the two concrete normalizations of the spec — a dict entry with a
millisecond epoch, a numeric-string open and mixed int/float prices, and a
five-element list entry whose missing volume defaults to 0 — together with
the general millisecond rule: any epoch value above 9999999999 is divided
by 1000. -/
theorem candle_normalization_concrete :
    append_from_dict [("time", .pint 1700000000000), ("open", .pstr "1.5"),
        ("high", .pint 2), ("low", .pint 1), ("close", .pfloat (9/5)),
        ("volume", .pint 100)]
      = some ⟨1700000000, 3/2, 2, 1, 9/5, 100⟩ ∧
    append_from_list [.pint 1700000000, .pfloat 1, .pfloat 2, .pfloat (1/2),
        .pfloat (3/2)]
      = some ⟨1700000000, 1, 2, 1/2, 3/2, 0⟩ ∧
    (∀ n : Int, msThreshold < n → timeFromVal (.pint n) = some (n.tdiv 1000)) := by
  refine ⟨by decide, by decide, ?_⟩
  intro n h
  simp [timeFromVal, h]

/-- Witness for `candle_normalization_concrete`: the millisecond rule at
the concrete epoch 1700000000000. -/
theorem candle_normalization_concrete_witness :
    timeFromVal (.pint 1700000000000) = some 1700000000 := by
  have := candle_normalization_concrete.2.2 1700000000000 (by decide)
  simpa using this

/-- C7: the three upstream response shapes — a top-level `candles` list, a
nested `data.candles` list, and a bare top-level list — are all normalized
through the same per-entry pass, tried in that order with the first match
winning (the nested shape is only consulted when the top-level `candles`
key is absent or not a list). -/
theorem historical_three_shapes (kvs inner : List (String × PyVal))
    (l : List PyVal) :
    (dget kvs "candles" = some (.plist l) →
        extract_candles (.pdict kvs) = iterate_and_append [] l) ∧
    ((∀ m : List PyVal, dget kvs "candles" ≠ some (.plist m)) →
      dget kvs "data" = some (.pdict inner) →
      dget inner "candles" = some (.plist l) →
        extract_candles (.pdict kvs) = iterate_and_append [] l) ∧
    extract_candles (.plist l) = iterate_and_append [] l := by
  have hne : ∀ (ks : List (String × PyVal)) (k : String) (v : PyVal),
      dget ks k = some v → ks.isEmpty = false := by
    intro ks k v h
    cases ks with
    | nil => simp [dget] at h
    | cons a rest => simp
  refine ⟨?_, ?_, ?_⟩
  · intro h
    have := hne kvs "candles" _ h
    simp [extract_candles, pyTruthyVal, this, h]
  · intro hnot hdata hinner
    have := hne kvs "data" _ hdata
    simp only [extract_candles, pyTruthyVal, this, Bool.not_false, if_true]
    rcases hc : dget kvs "candles" with _ | v
    · simp [hc, hdata, hinner]
    · cases v <;>
        first
          | exact absurd hc (hnot _)
          | simp [hc, hdata, hinner]
  · cases l with
    | nil => simp [extract_candles, pyTruthyVal, iterate_and_append]
    | cons x rest => simp [extract_candles, pyTruthyVal]

/-- Witness for `historical_three_shapes`: all three shapes on a concrete
one-candle payload agree with the direct normalization. -/
theorem historical_three_shapes_witness :
    extract_candles (.pdict [("candles", .plist [.pint 3])])
      = iterate_and_append [] [.pint 3] ∧
    extract_candles (.pdict [("status", .pstr "ok"),
        ("data", .pdict [("candles", .plist [.pint 3])])])
      = iterate_and_append [] [.pint 3] ∧
    extract_candles (.plist [.pint 3]) = iterate_and_append [] [.pint 3] :=
  ⟨(historical_three_shapes [("candles", .plist [.pint 3])] [] [.pint 3]).1 rfl,
   (historical_three_shapes [("status", .pstr "ok"),
        ("data", .pdict [("candles", .plist [.pint 3])])]
        [("candles", .plist [.pint 3])] [.pint 3]).2.1
      (by intro m h; simp [dget] at h) rfl rfl,
   (historical_three_shapes [] [] [.pint 3]).2.2⟩

/-- C8: `generate_access_token` raises the missing-configuration 500
before any exchange call when the API key or the secret is unset or empty
(zero exchange invocations), and a failing exchange call raises the
upstream 500 after exactly one exchange invocation — no internal retry. -/
theorem generate_access_token_error_paths (cfg : Config) (up : Upstream)
    (now : PyDateTime) (st : TokenState) :
    (pyTruthyStr cfg.api_key = false →
        (generate_access_token cfg up now st).result
          = .error (HErr.http 500 "Missing API_KEY environment variable. Please check your .env file or environment settings.") ∧
        (generate_access_token cfg up now st).exchangeCalls = 0) ∧
    (pyTruthyStr cfg.api_key = true → pyTruthyStr cfg.secret = false →
        (generate_access_token cfg up now st).result
          = .error (HErr.http 500 "Missing API_SECRET environment variable. Please check your .env file or environment settings.") ∧
        (generate_access_token cfg up now st).exchangeCalls = 0) ∧
    (∀ e, pyTruthyStr cfg.api_key = true → pyTruthyStr cfg.secret = true →
        up.exchangeResult = .error e →
        (generate_access_token cfg up now st).result
          = .error (HErr.http 500 ("Error fetching access token: " ++ e)) ∧
        (generate_access_token cfg up now st).exchangeCalls = 1) := by
  refine ⟨?_, ?_, ?_⟩
  · intro h; simp [generate_access_token, h]
  · intro h1 h2; simp [generate_access_token, h1, h2]
  · intro e h1 h2 hex; simp [generate_access_token, h1, h2, hex]

/-- Witness for `generate_access_token_error_paths`: missing key, missing
secret, and failing exchange, each at a concrete call. -/
theorem generate_access_token_error_paths_witness :
    (generate_access_token ⟨none, some "s"⟩ ⟨.ok "t", .ok ()⟩ ⟨1, 1⟩
        ⟨none, none, none⟩).exchangeCalls = 0 ∧
    (generate_access_token ⟨some "k", some ""⟩ ⟨.ok "t", .ok ()⟩ ⟨1, 1⟩
        ⟨none, none, none⟩).exchangeCalls = 0 ∧
    (generate_access_token ⟨some "k", some "s"⟩ ⟨.error "denied", .ok ()⟩ ⟨1, 1⟩
        ⟨none, none, none⟩).result
      = .error (HErr.http 500 "Error fetching access token: denied") :=
  ⟨((generate_access_token_error_paths ⟨none, some "s"⟩ ⟨.ok "t", .ok ()⟩ ⟨1, 1⟩
      ⟨none, none, none⟩).1 (by decide)).2,
   ((generate_access_token_error_paths ⟨some "k", some ""⟩ ⟨.ok "t", .ok ()⟩ ⟨1, 1⟩
      ⟨none, none, none⟩).2.1 (by decide) (by decide)).2,
   ((generate_access_token_error_paths ⟨some "k", some "s"⟩
      ⟨.error "denied", .ok ()⟩ ⟨1, 1⟩ ⟨none, none, none⟩).2.2 "denied"
      (by decide) (by decide) rfl).1⟩

/-- C9: a `/get-ltp` request with an empty symbols list fails with the 400
validation error before any token work or upstream call: no
`get_valid_access_token` invocation, no upstream invocation, and the
credential store untouched. -/
theorem get_ltp_empty_symbols_validated_first (cfg : Config) (up : Upstream)
    (env : LtpEnv) (now : PyDateTime) (st : TokenState) :
    (get_ltp [] cfg up env now st).result
      = .error (HErr.http 400 "Symbols list cannot be empty") ∧
    (get_ltp [] cfg up env now st).tokenCalls = 0 ∧
    (get_ltp [] cfg up env now st).upstreamCalls = 0 ∧
    (get_ltp [] cfg up env now st).state = st :=
  ⟨rfl, rfl, rfl, rfl⟩

/-- C10: candle normalization is per-entry and order-preserving — the
output is exactly the list of successfully normalized entries in input
order appended to the accumulator — and entries that are neither a dict
nor a list/tuple contribute nothing. -/
theorem normalization_order_and_skip (acc : List Candle) (items : List PyVal) :
    iterate_and_append acc items = acc ++ items.filterMap normalizeEntry ∧
    (∀ n : Int, normalizeEntry (.pint n) = none) ∧
    (∀ q : ℚ, normalizeEntry (.pfloat q) = none) ∧
    (∀ s : String, normalizeEntry (.pstr s) = none) ∧
    normalizeEntry .pnone = none :=
  ⟨iterate_and_append_eq acc items,
   fun _ => rfl, fun _ => rfl, fun _ => rfl, rfl⟩
